import Mathlib

/-!
Verification of the conditional-workflow spec against
src/dags/dbt_rental_property_dag.py.

The Python decision callables are embedded as pure Lean functions over the
captured subprocess output (and, for the freshness check, the structured
artifact file).  Python exceptions are modelled with Except; XCom pushes are
modelled by returning the pushed values alongside the chosen branch.
-/

set_option autoImplicit false

namespace DbtDag

/-! ### Subprocess results and string utilities -/

/-- The result of subprocess.run as the decision callables see it:
exit code plus captured stdout/stderr text. -/
structure SubprocResult where
  returncode : Int
  stdout : String
  stderr : String
deriving DecidableEq, Repr

/-- Whether the first list is an initial segment of the second. -/
def startsWithCL : List Char → List Char → Bool
  | [], _ => true
  | _ :: _, [] => false
  | a :: as, b :: bs => a == b && startsWithCL as bs

/-- Whether needle occurs contiguously inside hay. -/
def containsCL (needle : List Char) : List Char → Bool
  | [] => startsWithCL needle []
  | c :: cs => startsWithCL needle (c :: cs) || containsCL needle cs

/-- Python's substring test: needle in hay. -/
def pyIn (needle hay : String) : Bool := containsCL needle.data hay.data

/-! ### check_schema_changes (src lines 69-96) -/

/-- The sentinel text the schema probe prints when drift is detected. -/
def SCHEMA_MARKER : String := "SCHEMA CHANGE DETECTED"

/-- The branch returned by check_schema_changes together with the
refresh_strategy value it pushes to XCom before returning. -/
structure SchemaDecision where
  branch : String
  refresh_strategy : String
deriving DecidableEq, Repr

/-- Embeds check_schema_changes: output is result.stdout + result.stderr; if
the sentinel is present push refresh_strategy=full_refresh and branch to
schema_changed, otherwise push incremental and branch to schema_unchanged. -/
def check_schema_changes (r : SubprocResult) : SchemaDecision :=
  if pyIn SCHEMA_MARKER (r.stdout ++ r.stderr) then
    ⟨"schema_changed", "full_refresh"⟩
  else
    ⟨"schema_unchanged", "incremental"⟩

/-! ### check_late_arrivals (src lines 99-126)

The source calls re.search with the RAW string pattern
LATE_ARRIVAL_COUNT=(\\d+).  Because the string is raw, the two backslashes
reach the regex engine, which reads them as one escaped literal backslash
followed by the plain letter d repeated; the pattern therefore matches the
literal text LATE_ARRIVAL_COUNT= followed by a backslash and one or more
letter d characters, and the capture group is that backslash plus the run
of d letters.  It does NOT match a decimal count. -/

/-- Length of the maximal run of the letter d at the head of the list. -/
def dRunLen : List Char → Nat
  | 'd' :: rest => dRunLen rest + 1
  | _ => 0

/-- Consume an exact literal; return the remainder on success. -/
def consumeLit : List Char → List Char → Option (List Char)
  | [], cs => some cs
  | _ :: _, [] => none
  | l :: ls, c :: cs => if l == c then consumeLit ls cs else none

/-- One attempt of the pattern at this position: the literal text
LATE_ARRIVAL_COUNT= then a literal backslash then one or more d letters;
returns the capture group. -/
def lateCaptureAt (cs : List Char) : Option (List Char) :=
  match consumeLit ("LATE_ARRIVAL_COUNT=\\".data) cs with
  | none => none
  | some rest =>
    let k := dRunLen rest
    if k = 0 then none else some ('\\' :: List.replicate k 'd')

/-- re.search: the capture group of the leftmost match, if any. -/
def reSearchLate : List Char → Option (List Char)
  | [] => none
  | c :: cs =>
    match lateCaptureAt (c :: cs) with
    | some g => some g
    | none => reSearchLate cs

/-- Accumulate the numeric value of a digit list. -/
def natOfDigitsAux : Nat → List Char → Nat
  | acc, [] => acc
  | acc, c :: cs => natOfDigitsAux (acc * 10 + (c.toNat - 48)) cs

/-- Python's int() applied to a string: an optional sign followed by one or
more decimal digits; anything else raises ValueError (modelled as none). -/
def pyIntParse (cs : List Char) : Option Int :=
  match cs with
  | '-' :: ds =>
    if !ds.isEmpty && ds.all Char.isDigit then some (-(Int.ofNat (natOfDigitsAux 0 ds))) else none
  | '+' :: ds =>
    if !ds.isEmpty && ds.all Char.isDigit then some (Int.ofNat (natOfDigitsAux 0 ds)) else none
  | ds =>
    if !ds.isEmpty && ds.all Char.isDigit then some (Int.ofNat (natOfDigitsAux 0 ds)) else none

/-- The branch returned by check_late_arrivals together with the two values
it pushes to XCom. -/
structure LateDecision where
  branch : String
  late_arrivals_detected : Bool
  late_arrival_count : Int
deriving DecidableEq, Repr

/-- Embeds check_late_arrivals: search stdout+stderr with the (buggy) raw
pattern; when a match exists the code calls int() on the capture group, which
begins with a backslash and so raises ValueError (Except.error); otherwise
late_count stays 0, both XCom values are pushed, and the clean branch is
returned.  The final arm is the code's intended behaviour for a successfully
converted count. -/
def check_late_arrivals (r : SubprocResult) : Except String LateDecision :=
  let output := r.stdout ++ r.stderr
  match reSearchLate output.data with
  | none => Except.ok ⟨"late_arrivals_clean", false, 0⟩
  | some g =>
    match pyIntParse g with
    | none => Except.error "ValueError"
    | some n =>
      Except.ok ⟨if n > 0 then "late_arrivals_detected" else "late_arrivals_clean",
        decide (n > 0), n⟩

/-! ### check_source_freshness (src lines 129-200) -/

/-- One element of the results array inside target/sources.json.  An element
that is a JSON object is read with .get defaults; any other shape makes the
Python .get call raise (caught by the surrounding try, carrying msg). -/
inductive JsonEntry where
  | obj (unique_id status max_loaded_at : Option String)
  | nonObj (msg : String)
deriving DecidableEq, Repr

/-- The per-source record appended to the payload lists. -/
structure SourceInfo where
  name : String
  max_loaded_at : String
  status : String
deriving DecidableEq, Repr

/-- The freshness_results payload pushed to XCom. -/
structure FreshnessResults where
  passed : List SourceInfo
  warned : List SourceInfo
  errored : List SourceInfo
  runtime_error : Option String
deriving DecidableEq, Repr

/-- The payload as initialised at src line 148. -/
def emptyResults : FreshnessResults := ⟨[], [], [], none⟩

/-- The status string of an entry after the .get default (src line 172). -/
def entryStatus : JsonEntry → String
  | .obj _ st _ => st.getD "unknown"
  | .nonObj _ => ""

/-- The source_info record built at src lines 175-179. -/
def entryInfo : JsonEntry → SourceInfo
  | .obj uid st mla => ⟨uid.getD "unknown", mla.getD "N/A", st.getD "unknown"⟩
  | .nonObj _ => ⟨"", "", ""⟩

/-- Whether the entry is a JSON object. -/
def isObjEntry : JsonEntry → Bool
  | .obj _ _ _ => true
  | .nonObj _ => false

/-- The if/elif/elif classification at src lines 181-186: a status that is
none of pass/warn/error lands in no list. -/
def addEntry (acc : FreshnessResults) (e : JsonEntry) : FreshnessResults :=
  if entryStatus e = "pass" then { acc with passed := acc.passed ++ [entryInfo e] }
  else if entryStatus e = "warn" then { acc with warned := acc.warned ++ [entryInfo e] }
  else if entryStatus e = "error" then { acc with errored := acc.errored ++ [entryInfo e] }
  else acc

/-- The for loop over the results array; a non-object entry raises inside the
loop, the exception is caught and str(e) recorded as runtime_error, keeping
whatever was already appended. -/
def runLoop : List JsonEntry → FreshnessResults → FreshnessResults
  | [], acc => acc
  | .nonObj msg :: _, acc => { acc with runtime_error := some msg }
  | e :: rest, acc => runLoop rest (addEntry acc e)

/-- The state of target/sources.json as the try block sees it: absent
(os.path.exists false, nothing happens), unreadable (open or json.load
raises, caught, str(e) recorded), or parsed into a results array. -/
inductive FreshArtifact where
  | missing
  | unreadable (msg : String)
  | parsed (results : List JsonEntry)
deriving DecidableEq, Repr

/-- Embeds check_source_freshness: the returned branch name together with the
freshness_results payload pushed to XCom (the push happens before every
return: src lines 159 and 192).  The early return at src lines 155-160 fires
when the exit code is nonzero and stderr mentions Runtime Error; otherwise
the artifact is read inside try/except and the branch follows the
errored/warned lists. -/
def check_source_freshness (r : SubprocResult) (a : FreshArtifact) : String × FreshnessResults :=
  if r.returncode != 0 && pyIn "Runtime Error" r.stderr then
    ("source_freshness_failed", { emptyResults with runtime_error := some r.stderr })
  else
    let res :=
      match a with
      | .missing => emptyResults
      | .unreadable msg => { emptyResults with runtime_error := some msg }
      | .parsed entries => runLoop entries emptyResults
    let branch :=
      if !res.errored.isEmpty then "source_freshness_failed"
      else if !res.warned.isEmpty then "source_freshness_warning"
      else "source_freshness_passed"
    (branch, res)

/-! ### Branch sets

A BranchPythonOperator callable that returns a string selects exactly that
one branch; each callable in this DAG returns a single string (or raises, in
which case no branch is selected). -/

/-- The branch identifiers selected by one evaluation of
check_source_freshness. -/
def freshnessBranches (r : SubprocResult) (a : FreshArtifact) : List String :=
  [(check_source_freshness r a).1]

/-- The branch identifiers selected by one evaluation of
check_schema_changes. -/
def schemaBranches (r : SubprocResult) : List String :=
  [(check_schema_changes r).branch]

/-- The branch identifiers selected by one evaluation of
check_late_arrivals (none when the callable raises). -/
def lateBranches (r : SubprocResult) : List String :=
  match check_late_arrivals r with
  | Except.ok d => [d.branch]
  | Except.error _ => []

/-! ### The Shared State Relay and the Refresh-Strategy Composer
(src lines 500-513) -/

/-- A value held by the relay: the schema decision stores a string, the
late-arrival decision stores a boolean. -/
inductive XcomValue where
  | str (s : String)
  | boolean (b : Bool)
  | intVal (n : Int)
deriving DecidableEq, Repr

/-- Template rendering of a relay value inside the bash command: Python
booleans render as True/False. -/
def renderX : XcomValue → String
  | .str s => s
  | .boolean b => if b then "True" else "False"
  | .intVal n => toString n

/-- Reading a missing relay entry is a defined error. -/
inductive RelayError where
  | notFound
deriving DecidableEq, Repr

/-- The per-run relay contents: producer task id and key to value. -/
def Relay := String → String → Option XcomValue

/-- Modelled from the spec: the Shared State Relay read contract
read(producerId, key) -> value | NotFoundError (spec 4.4, 3).  The relay
implementation lives in the orchestration platform, not under src, so the
missing-entry behaviour is taken from the spec: no entry exists until the
producer completes, and reading a missing entry is a defined error rather
than an implicit default. -/
def relayRead (relay : Relay) (producer key : String) : Except RelayError XcomValue :=
  match relay producer key with
  | some v => Except.ok v
  | none => Except.error RelayError.notFound

/-- The two command variants of task fct_daily_listing_performance. -/
inductive RefreshVariant where
  | full
  | incremental
deriving DecidableEq, Repr

/-- Embeds the dispatch-time composition in the fct_daily bash command:
read refresh_strategy from check_schema_changes and late_arrivals_detected
from check_late_arrivals, then run the full-refresh variant when the first
renders as full_refresh or the second renders as True, else the incremental
variant. -/
def fct_daily_command (relay : Relay) : Except RelayError RefreshVariant := do
  let s ← relayRead relay "check_schema_changes" "refresh_strategy"
  let l ← relayRead relay "check_late_arrivals" "late_arrivals_detected"
  if renderX s = "full_refresh" ∨ renderX l = "True" then
    pure RefreshVariant.full
  else
    pure RefreshVariant.incremental

/-- The relay exactly as populated by the two producing decisions: the schema
decision stores its refresh_strategy string, the late-arrival decision stores
its boolean flag. -/
def producedRelay (strategy : String) (late : Bool) : Relay := fun producer key =>
  if producer = "check_schema_changes" ∧ key = "refresh_strategy" then
    some (XcomValue.str strategy)
  else if producer = "check_late_arrivals" ∧ key = "late_arrivals_detected" then
    some (XcomValue.boolean late)
  else
    none

/-! ### Trigger rules (joins declared at src lines 325-329, 442-445, 471-474) -/

/-- Task statuses of the execution engine. -/
inductive TaskStatus where
  | PENDING
  | QUEUED
  | RUNNING
  | SUCCESS
  | FAILED
  | SKIPPED_BRANCH
  | SKIPPED_UPSTREAM
deriving DecidableEq, Repr

/-- Readiness verdicts of the trigger-rule resolver; Blocked propagates to
the node as SKIPPED_UPSTREAM. -/
inductive Readiness where
  | Ready
  | NotYetReady
  | Blocked
deriving DecidableEq, Repr

/-- Whether a status is terminal. -/
def isTerminalStatus : TaskStatus → Bool
  | .SUCCESS => true
  | .FAILED => true
  | .SKIPPED_BRANCH => true
  | .SKIPPED_UPSTREAM => true
  | _ => false

/-- Modelled from the spec: the NoneFailedMinOneSuccess trigger rule (spec
4.2, 8).  The resolver itself is orchestration-platform code, not under src;
src only declares the rule on the three join tasks.  Ready iff no upstream is
FAILED and at least one is SUCCESS; any FAILED blocks; all upstreams terminal
without a SUCCESS also blocks (the no-success join is skipped); otherwise the
node is not yet ready. -/
def noneFailedMinOneSuccess (ups : List TaskStatus) : Readiness :=
  if ∃ s ∈ ups, s = TaskStatus.FAILED then Readiness.Blocked
  else if ∃ s ∈ ups, s = TaskStatus.SUCCESS then Readiness.Ready
  else if ∀ s ∈ ups, isTerminalStatus s = true then Readiness.Blocked
  else Readiness.NotYetReady

/-- The trigger rules declared on the three join tasks in the DAG source. -/
def joinTriggerRules : List (String × String) :=
  [("freshness_check_complete", "none_failed_min_one_success"),
   ("schema_check_complete", "none_failed_min_one_success"),
   ("late_arrivals_check_complete", "none_failed_min_one_success")]

/-! ### Helper lemmas -/

/-- When every entry of the results array is a JSON object, the loop appends
exactly the pass/warn/error entries to the corresponding lists and leaves
runtime_error untouched. -/
theorem runLoop_allObj : ∀ (entries : List JsonEntry) (acc : FreshnessResults),
    (∀ e ∈ entries, isObjEntry e = true) →
    runLoop entries acc =
      { passed := acc.passed ++ (entries.filter (fun e => entryStatus e == "pass")).map entryInfo,
        warned := acc.warned ++ (entries.filter (fun e => entryStatus e == "warn")).map entryInfo,
        errored := acc.errored ++ (entries.filter (fun e => entryStatus e == "error")).map entryInfo,
        runtime_error := acc.runtime_error } := by
  intro entries
  induction entries with
  | nil => intro acc _; simp [runLoop]
  | cons e rest ih =>
    intro acc h
    cases e with
    | nonObj msg =>
      have hmem := h _ (List.mem_cons_self _ _)
      simp [isObjEntry] at hmem
    | obj u s m =>
      have hrest : ∀ e ∈ rest, isObjEntry e = true := fun e he => h e (List.mem_cons_of_mem _ he)
      have hstep : runLoop (JsonEntry.obj u s m :: rest) acc
          = runLoop rest (addEntry acc (JsonEntry.obj u s m)) := rfl
      rw [hstep, ih _ hrest]
      by_cases hp : entryStatus (JsonEntry.obj u s m) = "pass"
      · simp [addEntry, hp, List.filter_cons, beq_iff_eq]
      · by_cases hw : entryStatus (JsonEntry.obj u s m) = "warn"
        · simp [addEntry, hp, hw, List.filter_cons, beq_iff_eq]
        · by_cases herr : entryStatus (JsonEntry.obj u s m) = "error"
          · simp [addEntry, hp, hw, herr, List.filter_cons, beq_iff_eq]
          · simp [addEntry, hp, hw, herr, List.filter_cons, beq_iff_eq]

/-- The mapped filter list is nonempty exactly when some entry has the given
status. -/
theorem filtmap_nonempty_iff (entries : List JsonEntry) (st : String) :
    ((entries.filter (fun e => entryStatus e == st)).map entryInfo).isEmpty = false
      ↔ ∃ e ∈ entries, entryStatus e = st := by
  induction entries with
  | nil => simp [List.isEmpty]
  | cons e rest ih =>
    by_cases h : entryStatus e = st
    · simp [List.filter_cons, h, List.isEmpty]
    · simp only [List.filter_cons, beq_iff_eq]
      rw [if_neg h]
      rw [ih]
      constructor
      · intro ⟨x, hx, hxs⟩; exact ⟨x, List.mem_cons_of_mem _ hx, hxs⟩
      · intro ⟨x, hx, hxs⟩
        rcases List.mem_cons.mp hx with rfl | hx'
        · exact absurd hxs h
        · exact ⟨x, hx', hxs⟩

/-! ### Claim theorems -/

/-- Claim C5: for every parsed freshness artifact (the run not having taken
the early Runtime-Error return), the decision selects
source_freshness_failed iff some probed source has status error, otherwise
source_freshness_warning iff some source has status warn, otherwise
source_freshness_passed; and the payload it pushes to the relay is exactly
the result of processing the artifact. -/
theorem freshness_branch_spec (r : SubprocResult) (entries : List JsonEntry)
    (hne : (r.returncode != 0 && pyIn "Runtime Error" r.stderr) = false)
    (hobj : ∀ e ∈ entries, isObjEntry e = true) :
    ((check_source_freshness r (FreshArtifact.parsed entries)).1 = "source_freshness_failed"
        ↔ ∃ e ∈ entries, entryStatus e = "error")
    ∧ ((check_source_freshness r (FreshArtifact.parsed entries)).1 = "source_freshness_warning"
        ↔ ((¬ ∃ e ∈ entries, entryStatus e = "error") ∧ ∃ e ∈ entries, entryStatus e = "warn"))
    ∧ ((¬ ∃ e ∈ entries, entryStatus e = "error") → (¬ ∃ e ∈ entries, entryStatus e = "warn") →
        (check_source_freshness r (FreshArtifact.parsed entries)).1 = "source_freshness_passed")
    ∧ (check_source_freshness r (FreshArtifact.parsed entries)).2 = runLoop entries emptyResults := by
  have key := runLoop_allObj entries emptyResults hobj
  have herr : (runLoop entries emptyResults).errored.isEmpty = false
      ↔ ∃ e ∈ entries, entryStatus e = "error" := by
    rw [key]
    exact filtmap_nonempty_iff entries "error"
  have hwarn : (runLoop entries emptyResults).warned.isEmpty = false
      ↔ ∃ e ∈ entries, entryStatus e = "warn" := by
    rw [key]
    exact filtmap_nonempty_iff entries "warn"
  have hunfold : check_source_freshness r (FreshArtifact.parsed entries)
      = (if !(runLoop entries emptyResults).errored.isEmpty then "source_freshness_failed"
         else if !(runLoop entries emptyResults).warned.isEmpty then "source_freshness_warning"
         else "source_freshness_passed", runLoop entries emptyResults) := by
    simp [check_source_freshness, hne]
  by_cases he : ∃ e ∈ entries, entryStatus e = "error"
  · have hb : (runLoop entries emptyResults).errored.isEmpty = false := herr.mpr he
    refine ⟨?_, ?_, ?_, ?_⟩ <;> simp [hunfold, hb, he]
  · have hb : (runLoop entries emptyResults).errored.isEmpty = true := by
      cases hval : (runLoop entries emptyResults).errored.isEmpty
      · exact absurd (herr.mp hval) he
      · rfl
    by_cases hw : ∃ e ∈ entries, entryStatus e = "warn"
    · have hb2 : (runLoop entries emptyResults).warned.isEmpty = false := hwarn.mpr hw
      refine ⟨?_, ?_, ?_, ?_⟩ <;> simp [hunfold, hb, hb2, he, hw]
    · have hb2 : (runLoop entries emptyResults).warned.isEmpty = true := by
        cases hval : (runLoop entries emptyResults).warned.isEmpty
        · exact absurd (hwarn.mp hval) hw
        · rfl
      refine ⟨?_, ?_, ?_, ?_⟩ <;> simp [hunfold, hb, hb2, he, hw]

/-- Concrete instance of freshness_branch_spec: one source with status error
selects the failure branch. -/
theorem freshness_branch_spec_witness :
    (check_source_freshness ⟨0, "", ""⟩
        (FreshArtifact.parsed [JsonEntry.obj (some "raw.listings") (some "error") (some "t")])).1
      = "source_freshness_failed" :=
  (freshness_branch_spec ⟨0, "", ""⟩
      [JsonEntry.obj (some "raw.listings") (some "error") (some "t")]
      (by decide) (by decide)).1.mpr
    ⟨JsonEntry.obj (some "raw.listings") (some "error") (some "t"), by simp, rfl⟩

/-- When the results array has a first non-object entry, the loop raises at
it, the except at src lines 188-189 catches the exception and records its
text in runtime_error, keeping whatever the loop had already appended. -/
theorem runLoop_nonObj_runtime_error :
    ∀ (pre : List JsonEntry) (msg : String) (rest : List JsonEntry) (acc : FreshnessResults),
    (∀ e ∈ pre, isObjEntry e = true) →
    (runLoop (pre ++ JsonEntry.nonObj msg :: rest) acc).runtime_error = some msg := by
  intro pre
  induction pre with
  | nil => intro msg rest acc _; rfl
  | cons e pre' ih =>
    intro msg rest acc h
    cases e with
    | nonObj m =>
      have hmem := h _ (List.mem_cons_self _ _)
      simp [isObjEntry] at hmem
    | obj u s m =>
      have hpre : ∀ e ∈ pre', isObjEntry e = true := fun e he => h e (List.mem_cons_of_mem _ he)
      have hstep : runLoop ((JsonEntry.obj u s m :: pre') ++ JsonEntry.nonObj msg :: rest) acc
          = runLoop (pre' ++ JsonEntry.nonObj msg :: rest) (addEntry acc (JsonEntry.obj u s m)) :=
        rfl
      rw [hstep]
      exact ih msg rest _ hpre

/-- Claim C9: check_source_freshness is total — the embedding is a function,
mirroring the try/except that catches every artifact-reading exception — it
always returns one of the three declared branches; when opening or decoding
the artifact raises, the exception text is recorded in the payload
runtime_error field; and when an entry of unexpected shape raises mid-loop,
that exception text is likewise recorded (the payload being pushed on every
path). -/
theorem freshness_total (r : SubprocResult) (a : FreshArtifact) :
    ((check_source_freshness r a).1 = "source_freshness_passed"
      ∨ (check_source_freshness r a).1 = "source_freshness_warning"
      ∨ (check_source_freshness r a).1 = "source_freshness_failed")
    ∧ (∀ msg, a = FreshArtifact.unreadable msg →
        (r.returncode != 0 && pyIn "Runtime Error" r.stderr) = false →
        (check_source_freshness r a).2.runtime_error = some msg)
    ∧ (∀ (pre rest : List JsonEntry) (msg : String),
        a = FreshArtifact.parsed (pre ++ JsonEntry.nonObj msg :: rest) →
        (∀ e ∈ pre, isObjEntry e = true) →
        (r.returncode != 0 && pyIn "Runtime Error" r.stderr) = false →
        (check_source_freshness r a).2.runtime_error = some msg) := by
  refine ⟨?_, ?_, ?_⟩
  · by_cases h : (r.returncode != 0 && pyIn "Runtime Error" r.stderr) = true
    · simp [check_source_freshness, h]
    · have h' : (r.returncode != 0 && pyIn "Runtime Error" r.stderr) = false := by
        cases hv : (r.returncode != 0 && pyIn "Runtime Error" r.stderr)
        · rfl
        · exact absurd hv h
      cases a with
      | missing => simp [check_source_freshness, h', emptyResults]
      | unreadable msg => simp [check_source_freshness, h', emptyResults]
      | parsed entries =>
        cases e1 : (runLoop entries emptyResults).errored.isEmpty with
        | false => simp [check_source_freshness, h', e1]
        | true =>
          cases e2 : (runLoop entries emptyResults).warned.isEmpty with
          | false => simp [check_source_freshness, h', e1, e2]
          | true => simp [check_source_freshness, h', e1, e2]
  · intro msg ha hne
    subst ha
    simp [check_source_freshness, hne]
  · intro pre rest msg ha hpre hne
    subst ha
    have hsnd : (check_source_freshness r
          (FreshArtifact.parsed (pre ++ JsonEntry.nonObj msg :: rest))).2
        = runLoop (pre ++ JsonEntry.nonObj msg :: rest) emptyResults := by
      simp [check_source_freshness, hne]
    rw [hsnd]
    exact runLoop_nonObj_runtime_error pre msg rest emptyResults hpre

/-- Concrete instance of freshness_total: an unreadable artifact still yields
a declared branch and records the exception text, and a misshapen entry
mid-array records its exception text too. -/
theorem freshness_total_witness :
    ((check_source_freshness ⟨0, "", ""⟩ (FreshArtifact.unreadable "boom")).1
        = "source_freshness_passed"
      ∨ (check_source_freshness ⟨0, "", ""⟩ (FreshArtifact.unreadable "boom")).1
        = "source_freshness_warning"
      ∨ (check_source_freshness ⟨0, "", ""⟩ (FreshArtifact.unreadable "boom")).1
        = "source_freshness_failed")
    ∧ (check_source_freshness ⟨0, "", ""⟩ (FreshArtifact.unreadable "boom")).2.runtime_error
        = some "boom"
    ∧ (check_source_freshness ⟨0, "", ""⟩
          (FreshArtifact.parsed
            [JsonEntry.obj (some "raw.a") (some "pass") none,
             JsonEntry.nonObj "AttributeError"])).2.runtime_error
        = some "AttributeError" :=
  ⟨(freshness_total ⟨0, "", ""⟩ (FreshArtifact.unreadable "boom")).1,
   (freshness_total ⟨0, "", ""⟩ (FreshArtifact.unreadable "boom")).2.1 "boom" rfl (by decide),
   (freshness_total ⟨0, "", ""⟩
        (FreshArtifact.parsed
          [JsonEntry.obj (some "raw.a") (some "pass") none,
           JsonEntry.nonObj "AttributeError"])).2.2
      [JsonEntry.obj (some "raw.a") (some "pass") none] [] "AttributeError"
      rfl (by decide) (by decide)⟩

/-- Claim C10: each payload list holds exactly the sources carrying its own
status, so a source with an unrecognized status (for example the default
unknown) lands in no list and can never cause the warning or failure branch;
an artifact in which every source has an unrecognized status selects
source_freshness_passed. -/
theorem unknown_status_ignored (r : SubprocResult) (entries : List JsonEntry)
    (hne : (r.returncode != 0 && pyIn "Runtime Error" r.stderr) = false)
    (hobj : ∀ e ∈ entries, isObjEntry e = true) :
    ((check_source_freshness r (FreshArtifact.parsed entries)).2.passed
        = (entries.filter (fun e => entryStatus e == "pass")).map entryInfo)
    ∧ ((check_source_freshness r (FreshArtifact.parsed entries)).2.warned
        = (entries.filter (fun e => entryStatus e == "warn")).map entryInfo)
    ∧ ((check_source_freshness r (FreshArtifact.parsed entries)).2.errored
        = (entries.filter (fun e => entryStatus e == "error")).map entryInfo)
    ∧ ((∀ e ∈ entries, entryStatus e ≠ "pass" ∧ entryStatus e ≠ "warn" ∧ entryStatus e ≠ "error") →
        (check_source_freshness r (FreshArtifact.parsed entries)).1 = "source_freshness_passed") := by
  have key := runLoop_allObj entries emptyResults hobj
  have hsnd : (check_source_freshness r (FreshArtifact.parsed entries)).2
      = runLoop entries emptyResults := by
    simp [check_source_freshness, hne]
  refine ⟨?_, ?_, ?_, ?_⟩
  · rw [hsnd, key]; rfl
  · rw [hsnd, key]; rfl
  · rw [hsnd, key]; rfl
  · intro hall
    have hfe : entries.filter (fun e => entryStatus e == "error") = [] :=
      List.filter_eq_nil_iff.mpr fun e he => by
        simp only [beq_iff_eq]
        exact (hall e he).2.2
    have hfw : entries.filter (fun e => entryStatus e == "warn") = [] :=
      List.filter_eq_nil_iff.mpr fun e he => by
        simp only [beq_iff_eq]
        exact (hall e he).2.1
    have h1 : (runLoop entries emptyResults).errored.isEmpty = true := by
      rw [key]; simp [hfe, emptyResults]
    have h2 : (runLoop entries emptyResults).warned.isEmpty = true := by
      rw [key]; simp [hfw, emptyResults]
    simp [check_source_freshness, hne, h1, h2]

/-- Concrete instance of unknown_status_ignored: an artifact whose only
source reports status unknown selects the passed branch. -/
theorem unknown_status_ignored_witness :
    (check_source_freshness ⟨0, "", ""⟩
        (FreshArtifact.parsed [JsonEntry.obj (some "s") (some "unknown") none])).1
      = "source_freshness_passed" :=
  (unknown_status_ignored ⟨0, "", ""⟩ [JsonEntry.obj (some "s") (some "unknown") none]
      (by decide) (by decide)).2.2.2 (by decide)

/-- Claim C1: over the relay values the two decisions actually write — the
schema decision writes its refresh_strategy string (full_refresh exactly when
the drift sentinel was present), the late-arrival decision writes a boolean —
the composer runs the full-refresh variant iff schema drift OR late arrivals,
so all four boolean combinations select the correct variant and
(false, false) selects incremental. -/
theorem refresh_strategy_composition (r : SubprocResult) (late : Bool) :
    fct_daily_command (producedRelay (check_schema_changes r).refresh_strategy late)
      = Except.ok (if pyIn SCHEMA_MARKER (r.stdout ++ r.stderr) || late then
          RefreshVariant.full
        else
          RefreshVariant.incremental) := by
  by_cases h : pyIn SCHEMA_MARKER (r.stdout ++ r.stderr) = true
  · simp only [check_schema_changes, h, if_true, Bool.true_or]
    cases late <;> rfl
  · have h' : pyIn SCHEMA_MARKER (r.stdout ++ r.stderr) = false := by
      cases hv : pyIn SCHEMA_MARKER (r.stdout ++ r.stderr)
      · rfl
      · exact absurd hv h
    simp only [check_schema_changes, h', if_false, Bool.false_or]
    cases late <;> rfl

/-- Claim C2: with the relay read contract of the spec, dispatching the
composer while either of its two relay entries is missing yields the
NotFoundError, never a command variant — in particular never a silent
incremental run. -/
theorem missing_relay_entry_fails (relay : Relay)
    (h : relay "check_schema_changes" "refresh_strategy" = none
       ∨ relay "check_late_arrivals" "late_arrivals_detected" = none) :
    fct_daily_command relay = Except.error RelayError.notFound := by
  cases h with
  | inl h1 =>
    simp only [fct_daily_command, relayRead, h1]
    rfl
  | inr h2 =>
    cases hv : relay "check_schema_changes" "refresh_strategy" with
    | none =>
      simp only [fct_daily_command, relayRead, hv]
      rfl
    | some v =>
      simp only [fct_daily_command, relayRead, hv, h2]
      rfl

/-- Concrete instance of missing_relay_entry_fails: the empty relay makes the
composer fail. -/
theorem missing_relay_entry_fails_witness :
    fct_daily_command (fun _ _ => none) = Except.error RelayError.notFound :=
  missing_relay_entry_fails (fun _ _ => none) (Or.inl rfl)

/-- Claim C3 (code bug): probe output reporting a positive count via
LATE_ARRIVAL_COUNT=5 does NOT select the late_arrivals_detected branch — the
raw-string pattern never matches a decimal count, so the code returns
late_arrivals_clean with detected=false and count 0; and output containing
the literal text the pattern does match makes int() raise ValueError. -/
theorem late_arrival_count_never_matches :
    check_late_arrivals ⟨0, "LATE_ARRIVAL_COUNT=5", ""⟩
        = Except.ok ⟨"late_arrivals_clean", false, 0⟩
    ∧ check_late_arrivals ⟨0, "LATE_ARRIVAL_COUNT=\\d", ""⟩
        = Except.error "ValueError" :=
  ⟨rfl, rfl⟩

/-- Claim C4 counterexample: on probe output that cannot be parsed (a dbt
failure dump without the sentinel marker), check_schema_changes proceeds
along exactly the path that treats the condition as absent: it selects
schema_unchanged and pushes refresh_strategy=incremental, recording no parse
failure anywhere. -/
theorem unparsable_defaults_counterexample :
    check_schema_changes ⟨1, "", "Compilation Error in operation"⟩
      = ⟨"schema_unchanged", "incremental"⟩ :=
  rfl

/-- Claim C4 as amended: when the probe output cannot be parsed (sentinel
marker absent, count pattern unmatched) the evaluators select the
unchanged/clean branches and push the no-issue values; no parse failure is
recorded in any payload (the payloads carry no such field). -/
theorem unparsable_defaults (r₁ r₂ : SubprocResult)
    (h1 : pyIn SCHEMA_MARKER (r₁.stdout ++ r₁.stderr) = false)
    (h2 : reSearchLate (r₂.stdout ++ r₂.stderr).data = none) :
    check_schema_changes r₁ = ⟨"schema_unchanged", "incremental"⟩
    ∧ check_late_arrivals r₂ = Except.ok ⟨"late_arrivals_clean", false, 0⟩ := by
  constructor
  · simp [check_schema_changes, h1]
  · rw [String.data_append] at h2
    simp [check_late_arrivals, h2]

/-- Concrete instance of unparsable_defaults at empty probe output. -/
theorem unparsable_defaults_witness :
    check_schema_changes ⟨0, "", ""⟩ = ⟨"schema_unchanged", "incremental"⟩
    ∧ check_late_arrivals ⟨0, "", ""⟩ = Except.ok ⟨"late_arrivals_clean", false, 0⟩ :=
  unparsable_defaults ⟨0, "", ""⟩ ⟨0, "", ""⟩ (by decide) rfl

/-- Claim C7 counterexample: at the very probe result the claim cites — one
passing and one warning source in the same artifact — the freshness decision
selects the single branch source_freshness_warning, not a multi-branch set. -/
theorem no_multi_select_counterexample :
    freshnessBranches ⟨0, "", ""⟩
        (FreshArtifact.parsed
          [JsonEntry.obj (some "raw.a") (some "pass") (some "t1"),
           JsonEntry.obj (some "raw.b") (some "warn") (some "t2")])
      = ["source_freshness_warning"]
    ∧ (freshnessBranches ⟨0, "", ""⟩
        (FreshArtifact.parsed
          [JsonEntry.obj (some "raw.a") (some "pass") (some "t1"),
           JsonEntry.obj (some "raw.b") (some "warn") (some "t2")])).length = 1 :=
  ⟨rfl, rfl⟩

/-- Claim C7 as amended: the evaluators never multi-select — every decision
evaluation returns exactly one branch identifier (check_late_arrivals returns
at most one, none when it raises). -/
theorem single_branch_always (r : SubprocResult) (a : FreshArtifact) :
    (freshnessBranches r a).length = 1
    ∧ (schemaBranches r).length = 1
    ∧ (lateBranches r).length ≤ 1 := by
  refine ⟨rfl, rfl, ?_⟩
  unfold lateBranches
  cases check_late_arrivals r <;> simp

/-- Claim C8: each decision is a pure function of its probe output —
byte-identical captured output (and, for the freshness decision, identical
exit code, stderr and artifact; its stdout is never read) yields identical
branch selection and identical relay payload values. -/
theorem decision_idempotent :
    (∀ r₁ r₂ : SubprocResult, r₁.stdout ++ r₁.stderr = r₂.stdout ++ r₂.stderr →
        check_schema_changes r₁ = check_schema_changes r₂)
    ∧ (∀ r₁ r₂ : SubprocResult, r₁.stdout ++ r₁.stderr = r₂.stdout ++ r₂.stderr →
        check_late_arrivals r₁ = check_late_arrivals r₂)
    ∧ (∀ (r₁ r₂ : SubprocResult) (a : FreshArtifact),
        r₁.returncode = r₂.returncode → r₁.stderr = r₂.stderr →
        check_source_freshness r₁ a = check_source_freshness r₂ a) := by
  refine ⟨?_, ?_, ?_⟩
  · intro r₁ r₂ h
    simp [check_schema_changes, h]
  · intro r₁ r₂ h
    simp [check_late_arrivals, h]
  · intro r₁ r₂ a h1 h2
    simp [check_source_freshness, h1, h2]

/-- Concrete instance of decision_idempotent: results coincide on inputs
carrying the same probe output split differently across the streams. -/
theorem decision_idempotent_witness :
    check_schema_changes ⟨0, "ab", ""⟩ = check_schema_changes ⟨0, "a", "b"⟩
    ∧ check_late_arrivals ⟨0, "ab", ""⟩ = check_late_arrivals ⟨0, "a", "b"⟩
    ∧ check_source_freshness ⟨0, "x", "e"⟩ FreshArtifact.missing
        = check_source_freshness ⟨0, "y", "e"⟩ FreshArtifact.missing :=
  ⟨decision_idempotent.1 ⟨0, "ab", ""⟩ ⟨0, "a", "b"⟩ rfl,
   decision_idempotent.2.1 ⟨0, "ab", ""⟩ ⟨0, "a", "b"⟩ rfl,
   decision_idempotent.2.2 ⟨0, "x", "e"⟩ ⟨0, "y", "e"⟩ FreshArtifact.missing rfl rfl⟩

/-- Claim C6: the NoneFailedMinOneSuccess rule declared on the three join
tasks makes a node Ready iff no upstream is FAILED and at least one upstream
is SUCCESS, with SKIPPED statuses neutral; the three cited upstream
combinations resolve as the claim states (Blocked propagating as
SKIPPED_UPSTREAM); and the DAG declares exactly this rule on its three join
tasks. -/
theorem none_failed_min_one_success_rule :
    (∀ ups : List TaskStatus,
        noneFailedMinOneSuccess ups = Readiness.Ready
          ↔ ((¬ ∃ s ∈ ups, s = TaskStatus.FAILED) ∧ ∃ s ∈ ups, s = TaskStatus.SUCCESS))
    ∧ noneFailedMinOneSuccess [TaskStatus.SUCCESS, TaskStatus.SKIPPED_BRANCH] = Readiness.Ready
    ∧ noneFailedMinOneSuccess [TaskStatus.FAILED, TaskStatus.SUCCESS] = Readiness.Blocked
    ∧ noneFailedMinOneSuccess [TaskStatus.SKIPPED_BRANCH, TaskStatus.SKIPPED_BRANCH]
        = Readiness.Blocked
    ∧ joinTriggerRules.all (fun p => p.2 == "none_failed_min_one_success") = true := by
  refine ⟨?_, by decide, by decide, by decide, by decide⟩
  intro ups
  unfold noneFailedMinOneSuccess
  by_cases hf : ∃ s ∈ ups, s = TaskStatus.FAILED
  · simp [hf]
  · by_cases hs : ∃ s ∈ ups, s = TaskStatus.SUCCESS
    · simp [hf, hs]
    · simp only [hf, hs, if_false]
      constructor
      · intro hcontra
        by_cases ht : ∀ s ∈ ups, isTerminalStatus s = true
        · rw [if_pos ht] at hcontra
          exact absurd hcontra (by simp)
        · rw [if_neg ht] at hcontra
          exact absurd hcontra (by simp)
      · intro ⟨_, hex⟩
        exact hex.elim

end DbtDag
